import Mathlib

/-!
Verification of the P1 smart-meter ingestion pipeline (`p1.py`).

The embedding translates the source line by line:
* the compiled regular expressions become deterministic list-of-character
  matchers (the lines handed to them come from `readline().strip()`, so they
  never contain a newline, and the meter emits ASCII);
* `datetime.strptime` with format `%y%m%d%H%M%S` becomes `strptimeP1`, a
  parser for the twelve-digit timestamp strings of the protocol, returning
  epoch seconds (`none` models the `ValueError` the Python call raises on an
  impossible calendar date);
* Python `float` values parsed from the fixed-point decimal captures are
  represented exactly as rationals (every capture is a decimal literal, and
  the single arithmetic operation of the extractor, the kilowatt-to-watt
  rescale of `00.234`, is exact in IEEE double as well);
* the `while True` read loop of `__main__` becomes a step function
  `asmStep` over an explicit assembler state, and the per-reading routing
  function `add_p1_to_influxdb` returns the list of sink writes it performs
  together with an `err` field recording whether it raised.
-/

namespace P1

/-- A stripped serial line, as a list of characters. -/
abbrev Line := List Char

/-! ### Constants from the source -/

def influxdb_highres_bucket : String := "p1_hr"

def influxdb_lowres_bucket : String := "p1_lr"

/-- P1 message should never be more than this number of lines. -/
def P1_MSG_LIMIT : Nat := 100

/-! ### Character and digit helpers -/

def digitVal (c : Char) : Nat := c.toNat - 48

def natOfDigits (cs : List Char) : Nat :=
  cs.foldl (fun a c => a * 10 + digitVal c) 0

/-- Value of a fixed-point decimal capture `\d+\.\d+`, exactly.  Built with
    `mkRat` so that it evaluates by kernel reduction; `decVal_eq` below states
    the intended value `ip + fp / 10 ^ len`. -/
def decVal (ip fp : List Char) : ℚ :=
  mkRat (natOfDigits ip * 10 ^ fp.length + natOfDigits fp) (10 ^ fp.length)

/-- The kilowatt-to-watt rescale `float(...) * 1000` of the source, again in a
    kernel-reducible form; `wattOfKw_eq` states the value. -/
def wattOfKw (q : ℚ) : ℚ := mkRat (q.num * 1000) q.den

theorem decVal_eq (ip fp : List Char) :
    decVal ip fp = (natOfDigits ip : ℚ) + (natOfDigits fp : ℚ) / (10 : ℚ) ^ fp.length := by
  rw [decVal, Rat.mkRat_eq_div]
  push_cast
  rw [add_div, mul_div_assoc]
  have h10 : ((10 : ℚ) ^ fp.length) ≠ 0 := by positivity
  rw [div_self h10, mul_one]

theorem wattOfKw_eq (q : ℚ) : wattOfKw q = q * 1000 := by
  rw [wattOfKw, Rat.mkRat_eq_div]
  push_cast
  rw [mul_comm (q.num : ℚ) 1000, mul_div_assoc, Rat.num_div_den, mul_comm]

/-- Uppercase hexadecimal digit, as in the trailer pattern `[A-F0-9]`. -/
def isHexUp (c : Char) : Bool :=
  c.isDigit || ('A' ≤ c && c ≤ 'F')

def hexDigitVal (c : Char) : Nat :=
  if c.isDigit then c.toNat - 48 else c.toNat - 55

def hexVal (cs : List Char) : Nat :=
  cs.foldl (fun a c => a * 16 + hexDigitVal c) 0

/-- Strip a literal from the front of a line, or fail. -/
def stripLit : List Char → List Char → Option (List Char)
  | [], cs => some cs
  | _ :: _, [] => none
  | p :: ps, c :: cs => if c = p then stripLit ps cs else none

/-! ### The compiled patterns of the source

Each matcher is the anchored regular expression from `p1.py`, specialised to
newline-free ASCII lines.  They return the captured groups. -/

/-- `regex_p1_header`: `^/ISK5.*$`. -/
def headerMatch (l : Line) : Bool :=
  (stripLit ['/', 'I', 'S', 'K', '5'] l).isSome

/-- `regex_p1_crc`: `^\!(?P<crc>[A-F0-9]{4})$`; returns the `crc` group. -/
def matchCrc (l : Line) : Option (List Char) :=
  match l with
  | '!' :: rest =>
    if rest.length = 4 && rest.all isHexUp then some rest else none
  | _ => none

/-- Capture of `(?P<ts>\d+)(?P<dst>[WS])\)$` after a literal head: the digits
    are taken greedily, then exactly the flag and the closing parenthesis must
    remain. -/
def tsFlagCapture (cs : List Char) : Option (List Char × Char) :=
  let ds := cs.takeWhile Char.isDigit
  match cs.dropWhile Char.isDigit with
  | [f, ')'] =>
    if ds ≠ [] ∧ (f = 'W' ∨ f = 'S') then some (ds, f) else none
  | _ => none

/-- `regex_p1_timestamp`: `^0-0:1\.0\.0\((?P<timestamp>\d+)(?P<dst>[WS])\)$`. -/
def matchTimestamp (l : Line) : Option (List Char × Char) :=
  match stripLit ("0-0:1.0.0(".toList) l with
  | some rest => tsFlagCapture rest
  | none => none

/-- Capture of `(?P<v>\d+\.\d+)` followed by a literal tail (`*kW)` etc.). -/
def decCapture (tail cs : List Char) : Option ℚ :=
  let ip := cs.takeWhile Char.isDigit
  match cs.dropWhile Char.isDigit with
  | '.' :: r2 =>
    let fp := r2.takeWhile Char.isDigit
    if ip ≠ [] ∧ fp ≠ [] ∧ r2.dropWhile Char.isDigit = tail then
      some (decVal ip fp)
    else none
  | _ => none

/-- `regex_current_kwatt`: `^1-0:1\.7\.0\((?P<kwatt>\d+\.\d+)\*kW\)$`. -/
def matchKwatt (l : Line) : Option ℚ :=
  match stripLit ("1-0:1.7.0(".toList) l with
  | some rest => decCapture ("*kW)".toList) rest
  | none => none

/-- `regex_tariff1_total`: `^1-0:1\.8\.1\((?P<kwh>\d+\.\d+)\*kWh\)$`. -/
def matchTariff1 (l : Line) : Option ℚ :=
  match stripLit ("1-0:1.8.1(".toList) l with
  | some rest => decCapture ("*kWh)".toList) rest
  | none => none

/-- `regex_tariff2_total`: `^1-0:1\.8\.2\((?P<kwh>\d+\.\d+)\*kWh\)$`. -/
def matchTariff2 (l : Line) : Option ℚ :=
  match stripLit ("1-0:1.8.2(".toList) l with
  | some rest => decCapture ("*kWh)".toList) rest
  | none => none

/-- `regex_l1_voltage`: `^1-0:32\.7\.0\((?P<voltage>\d+\.\d+)\*V\)$`. -/
def matchVoltage (l : Line) : Option ℚ :=
  match stripLit ("1-0:32.7.0(".toList) l with
  | some rest => decCapture ("*V)".toList) rest
  | none => none

/-- `regex_gas_total`:
    `^0-1:24\.2\.1\((?P<timestamp>\d+)(?P<dst>[WS])\)\((?P<gas>\d+\.\d+)\*m3\)$`. -/
def matchGas (l : Line) : Option (List Char × Char × ℚ) :=
  match stripLit ("0-1:24.2.1(".toList) l with
  | some rest =>
    let ds := rest.takeWhile Char.isDigit
    match rest.dropWhile Char.isDigit with
    | f :: ')' :: '(' :: r3 =>
      if ds ≠ [] ∧ (f = 'W' ∨ f = 'S') then
        match decCapture ("*m3)".toList) r3 with
        | some q => some (ds, f, q)
        | none => none
      else none
    | _ => none
  | none => none

/-! ### Calendar arithmetic and `datetime.strptime` -/

def isLeapYear (y : Nat) : Bool :=
  (y % 4 = 0 && y % 100 ≠ 0) || y % 400 = 0

def daysInMonth (y m : Nat) : Nat :=
  if m = 2 then (if isLeapYear y then 29 else 28)
  else if m = 4 ∨ m = 6 ∨ m = 9 ∨ m = 11 then 30
  else 31

/-- Days since 1970-01-01 of a civil date (valid for years of the `%y`
    format, all of which are at least 1969). -/
def daysFromCivil (y m d : Nat) : Int :=
  let yAdj := if m ≤ 2 then y - 1 else y
  let era := yAdj / 400
  let yoe := yAdj % 400
  let mp := if m ≤ 2 then m + 9 else m - 3
  let doy := (153 * mp + 2) / 5 + d - 1
  let doe := yoe * 365 + yoe / 4 - yoe / 100 + doy
  (era : Int) * 146097 + (doe : Int) - 719468

/-- Epoch seconds of a naive civil date-time. -/
def toEpochSecs (y mo da h mi s : Nat) : Int :=
  daysFromCivil y mo da * 86400 + ((h * 3600 + mi * 60 + s : Nat) : Int)

/-- `datetime.datetime.strptime(timestring, "%y%m%d%H%M%S")` on the protocol's
    twelve-digit timestamp captures, as naive epoch seconds.  `%y` maps 00-68
    to 2000-2068 and 69-99 to 1969-1999; an impossible calendar date or
    out-of-range time raises `ValueError`, modelled as `none`. -/
def strptimeP1 (cs : List Char) : Option Int :=
  match cs with
  | [y1, y2, m1, m2, d1, d2, h1, h2, n1, n2, s1, s2] =>
    if cs.all Char.isDigit then
      let yy := digitVal y1 * 10 + digitVal y2
      let y := if yy ≤ 68 then 2000 + yy else 1900 + yy
      let mo := digitVal m1 * 10 + digitVal m2
      let da := digitVal d1 * 10 + digitVal d2
      let h := digitVal h1 * 10 + digitVal h2
      let mi := digitVal n1 * 10 + digitVal n2
      let s := digitVal s1 * 10 + digitVal s2
      if 1 ≤ mo ∧ mo ≤ 12 ∧ 1 ≤ da ∧ da ≤ daysInMonth y mo ∧
          h ≤ 23 ∧ mi ≤ 59 ∧ s ≤ 59 then
        some (toEpochSecs y mo da h mi s)
      else none
    else none
  | _ => none

/-- `p1_localtime_to_utc`: convert a P1 timestring in local time to UTC.
    `tz` and `alt` are the ambient `time.timezone` and `time.altzone` of the
    host (seconds west of UTC); the source picks the offset from the seasonal
    flag alone and adds it to the parsed local time. -/
def p1_localtime_to_utc (tz alt : Int) (timestring : List Char) (dstchar : Char) :
    Option Int :=
  match strptimeP1 timestring with
  | some localT => some (localT + (if dstchar = 'W' then tz else alt))
  | none => none

/-! ### The `P1Data` record and `p1_data_from_lines` -/

/-- The `P1Data` dataclass: every field defaults to absent. -/
structure P1Data where
  timestamp : Option Int := none
  watt : Option ℚ := none
  tariff1 : Option ℚ := none
  tariff2 : Option ℚ := none
  voltage : Option ℚ := none
  gas : Option ℚ := none
  gas_timestamp : Option Int := none
deriving DecidableEq

/-- The `regex_p1_timestamp` branch of the loop body; `none` models the
    uncaught `ValueError` from `strptime` propagating out. -/
def applyTimestamp (tz alt : Int) (p : P1Data) (l : Line) : Option P1Data :=
  match matchTimestamp l with
  | some (ds, f) =>
    match p1_localtime_to_utc tz alt ds f with
    | some t => some { p with timestamp := some t }
    | none => none
  | none => some p

def setWatt (p : P1Data) (l : Line) : P1Data :=
  match matchKwatt l with
  | some q => { p with watt := some (wattOfKw q) }
  | none => p

def setTariff1 (p : P1Data) (l : Line) : P1Data :=
  match matchTariff1 l with
  | some q => { p with tariff1 := some q }
  | none => p

def setTariff2 (p : P1Data) (l : Line) : P1Data :=
  match matchTariff2 l with
  | some q => { p with tariff2 := some q }
  | none => p

def setVoltage (p : P1Data) (l : Line) : P1Data :=
  match matchVoltage l with
  | some q => { p with voltage := some q }
  | none => p

/-- The four infallible electricity branches, in source order. -/
def applyElectric (p : P1Data) (l : Line) : P1Data :=
  setVoltage (setTariff2 (setTariff1 (setWatt p l) l) l) l

/-- The `regex_gas_total` branch: sets `gas_timestamp` and `gas` together;
    a `ValueError` from the conversion propagates (`none`). -/
def applyGas (tz alt : Int) (p : P1Data) (l : Line) : Option P1Data :=
  match matchGas l with
  | some (ds, f, q) =>
    match p1_localtime_to_utc tz alt ds f with
    | some t => some { p with gas_timestamp := some t, gas := some q }
    | none => none
  | none => some p

/-- One iteration of the `for line in lines` loop of `p1_data_from_lines`:
    the six pattern tests run in source order, and an exception from either
    timestamp conversion aborts the whole call. -/
def processLine (tz alt : Int) (p : P1Data) (l : Line) : Option P1Data :=
  match applyTimestamp tz alt p l with
  | some p1 => applyGas tz alt (applyElectric p1 l) l
  | none => none

def p1_data_from_lines_aux (tz alt : Int) (p : P1Data) : List Line → Option P1Data
  | [] => some p
  | l :: ls =>
    match processLine tz alt p l with
    | some p2 => p1_data_from_lines_aux tz alt p2 ls
    | none => none

/-- `p1_data_from_lines`: fold the loop body over the body lines, starting
    from an all-absent `P1Data`. -/
def p1_data_from_lines (tz alt : Int) (lines : List Line) : Option P1Data :=
  p1_data_from_lines_aux tz alt {} lines

/-! ### The frame assembler of the `__main__` read loop

The outer `while True` loop discards lines until one matches the header
pattern; it then enters the inner `while len(p1_msg) <= P1_MSG_LIMIT` loop,
which appends every line that does not match the CRC trailer pattern.  A
trailer match completes the frame; exceeding the line budget prints the
overrun message, drops the buffer, and falls back to the outer loop. -/

inductive AsmState where
  | awaitHeader : AsmState
  | collecting : List Line → AsmState
deriving DecidableEq

inductive AsmEvent where
  | overrun : AsmEvent
  | completeFrame : List Line → List Char → AsmEvent
deriving DecidableEq

/-- One consumed line of the read loop. -/
def asmStep (st : AsmState) (line : Line) : AsmState × List AsmEvent :=
  match st with
  | .awaitHeader =>
    if headerMatch line then (.collecting [], []) else (.awaitHeader, [])
  | .collecting buf =>
    match matchCrc line with
    | some crc => (.awaitHeader, [.completeFrame buf crc])
    | none =>
      let buf2 := buf ++ [line]
      if P1_MSG_LIMIT < buf2.length then (.awaitHeader, [.overrun])
      else (.collecting buf2, [])

/-- Run the read loop over a finite stretch of the line stream. -/
def asmRun (st : AsmState) : List Line → AsmState × List AsmEvent
  | [] => (st, [])
  | l :: ls =>
    let s1 := asmStep st l
    let s2 := asmRun s1.1 ls
    (s2.1, s1.2 ++ s2.2)

/-! ### The dual-rate router `add_p1_to_influxdb` -/

/-- One InfluxDB point as the source constructs it:
    `Point(m).tag("reading", r).field(k, v).time(t)`. -/
structure Point where
  measurement : String
  readingTag : String
  fieldKey : String
  fieldValue : Option ℚ
  time : Option Int
deriving DecidableEq

/-- The tuple of five points built at the top of `add_p1_to_influxdb`. -/
def pointsOf (p : P1Data) : List Point :=
  [ ⟨"electricity", "power", "watt", p.watt, p.timestamp⟩,
    ⟨"electricity", "tariff1", "kwh", p.tariff1, p.timestamp⟩,
    ⟨"electricity", "tariff2", "kwh", p.tariff2, p.timestamp⟩,
    ⟨"electricity", "voltage", "volt", p.voltage, p.timestamp⟩,
    ⟨"gas", "usage", "m3", p.gas, p.gas_timestamp⟩ ]

/-- `datetime.second` of an epoch-seconds instant. -/
def secondOf (t : Int) : Int := t.emod 60

/-- The observable outcome of one `add_p1_to_influxdb` call: the `db.write`
    calls it issued, in order, and the exception it raised, if any. -/
structure RouteResult where
  writes : List (String × List Point)
  err : Option String
deriving DecidableEq

/-- `add_p1_to_influxdb`: the high-resolution write is unconditional; the
    low-resolution write happens when `p1.timestamp.second == 0`.  When
    `p1.timestamp` is `None`, the attribute access `p1.timestamp.second`
    raises `AttributeError` — after the high-resolution write has already
    been issued. -/
def add_p1_to_influxdb (p : P1Data) : RouteResult :=
  let pts := pointsOf p
  match p.timestamp with
  | none => ⟨[(influxdb_highres_bucket, pts)], some "AttributeError"⟩
  | some t =>
    if secondOf t = 0 then
      ⟨[(influxdb_highres_bucket, pts), (influxdb_lowres_bucket, pts)], none⟩
    else
      ⟨[(influxdb_highres_bucket, pts)], none⟩

/-- The main loop routes each assembled Reading independently; no state is
    carried from one frame to the next. -/
def processReadings (ps : List P1Data) : List RouteResult :=
  ps.map add_p1_to_influxdb

/-- What `__main__` does once a line matches `regex_p1_crc`: the captured
    `crc` group is never compared to anything; the buffered body goes
    straight to `p1_data_from_lines` and the result to `add_p1_to_influxdb`.
    `none` models an uncaught exception from the extractor. -/
def handleFrame (tz alt : Int) (body : List Line) ( _crc : List Char) :
    Option RouteResult :=
  match p1_data_from_lines tz alt body with
  | some p => some (add_p1_to_influxdb p)
  | none => none

/-! ### The checksum the design mandates

Modelled from the spec: the Checksum Validator is missing from the source
(the trailer value is captured but never recomputed or compared — the spec
itself calls this a defect).  The meter protocol's standard CRC16 variant is
CRC16/ARC: initial value 0, reflected polynomial 0xA001, no final xor,
computed over the byte span from the header's first character through the
trailer's `!`, with lines separated by CR LF on the wire. -/

def crc16Round (c : Nat) : Nat :=
  if c % 2 = 1 then (c / 2) ^^^ 0xA001 else c / 2

def crc16Byte (crc b : Nat) : Nat :=
  crc16Round^[8] (crc ^^^ b)

/-- CRC16 continued from an intermediate remainder. -/
def crc16From (c : Nat) (bytes : List Nat) : Nat := bytes.foldl crc16Byte c

def crc16 (bytes : List Nat) : Nat := crc16From 0 bytes

theorem crc16From_append (c : Nat) (xs ys : List Nat) :
    crc16From c (xs ++ ys) = crc16From (crc16From c xs) ys :=
  List.foldl_append crc16Byte c xs ys

/-- The on-wire bytes of one stripped line, CR LF restored. -/
def lineBytes (l : Line) : List Nat := (l ++ ['\x0d', '\x0a']).map Char.toNat

/-- Modelled from the spec: the byte span the trailer checksum covers, from
    the header's first character through the trailer's `!`, the stripped
    CR LF line endings restored. -/
def telegramBytes (header : Line) (body : List Line) : List Nat :=
  (joinLines (header :: body) ++ ['\x0d', '\x0a', '!']).map Char.toNat
where
  joinLines : List Line → List Char
    | [] => []
    | [l] => l
    | l :: l2 :: ls => l ++ '\x0d' :: '\x0a' :: joinLines (l2 :: ls)

/-! ### The sample telegram of the spec -/

def sampleHeader : Line := "/ISK5\\2M550E-1013".toList

def sampleBody : List Line :=
  [ "0-0:1.0.0(210214195440W)".toList,
    "1-0:1.7.0(00.234*kW)".toList,
    "1-0:1.8.1(000032.289*kWh)".toList,
    "1-0:1.8.2(000016.064*kWh)".toList,
    "1-0:32.7.0(235.2*V)".toList,
    "0-1:24.2.1(210214195003W)(00026.800*m3)".toList ]

/-! ## Claim theorems -/

/-- C2: for every Reading with a present timestamp, routing emits the full
    five-point set to the high-resolution sink unconditionally and to the
    low-resolution sink if and only if the timestamp's seconds-of-minute
    component is zero; no error is raised. -/
theorem c2_dual_rate_routing (p : P1Data) (t : Int) (h : p.timestamp = some t) :
    (add_p1_to_influxdb p).err = none ∧
    (add_p1_to_influxdb p).writes =
      (if secondOf t = 0 then
        [(influxdb_highres_bucket, pointsOf p), (influxdb_lowres_bucket, pointsOf p)]
      else
        [(influxdb_highres_bucket, pointsOf p)]) := by
  unfold add_p1_to_influxdb
  rw [h]
  by_cases hs : secondOf t = 0 <;> simp [hs]

/-- C2 witness: a Reading stamped on a minute boundary (epoch second 120)
    is routed without error, to both sinks. -/
theorem c2_witness :
    (⟨some 120, none, none, none, none, none, none⟩ : P1Data).timestamp = some 120 ∧
    ((add_p1_to_influxdb ⟨some 120, none, none, none, none, none, none⟩).err = none ∧
      (add_p1_to_influxdb ⟨some 120, none, none, none, none, none, none⟩).writes =
        (if secondOf 120 = 0 then
          [(influxdb_highres_bucket, pointsOf ⟨some 120, none, none, none, none, none, none⟩),
           (influxdb_lowres_bucket, pointsOf ⟨some 120, none, none, none, none, none, none⟩)]
        else
          [(influxdb_highres_bucket, pointsOf ⟨some 120, none, none, none, none, none, none⟩)])) :=
  ⟨rfl, c2_dual_rate_routing _ 120 rfl⟩

/-- C3 counterexample: a Reading with an absent timestamp and a present watt
    field IS written to the high-resolution sink (the write on line 118 of
    the source precedes the `p1.timestamp.second` access that raises), so
    the claim that nothing reaches either sink fails on this input. -/
theorem c3_counterexample :
    (add_p1_to_influxdb ⟨none, some 234, none, none, none, none, none⟩).writes
        = [(influxdb_highres_bucket,
            pointsOf ⟨none, some 234, none, none, none, none, none⟩)] ∧
    (add_p1_to_influxdb ⟨none, some 234, none, none, none, none, none⟩).err
        = some "AttributeError" := by
  exact ⟨rfl, rfl⟩

/-- C3 amended: a Reading without a timestamp makes routing fail (an uncaught
    `AttributeError` from `p1.timestamp.second`, not a recoverable
    `IncompleteReading`), and the low-resolution sink is never written — but
    the full point set has already been written to the high-resolution sink
    before the failure. -/
theorem c3_highres_written_before_failure (p : P1Data) (h : p.timestamp = none) :
    add_p1_to_influxdb p
      = ⟨[(influxdb_highres_bucket, pointsOf p)], some "AttributeError"⟩ := by
  unfold add_p1_to_influxdb
  rw [h]

/-- C3 witness: the amended statement at a concrete timestampless Reading. -/
theorem c3_witness :
    (⟨none, none, none, none, none, some 1, some 7⟩ : P1Data).timestamp = none ∧
    add_p1_to_influxdb ⟨none, none, none, none, none, some 1, some 7⟩
      = ⟨[(influxdb_highres_bucket, pointsOf ⟨none, none, none, none, none, some 1, some 7⟩)],
         some "AttributeError"⟩ :=
  ⟨rfl, c3_highres_written_before_failure _ rfl⟩

/-- C4: the conversion to UTC adds the standard-time offset (`time.timezone`)
    exactly when the seasonal flag is `W` and the daylight offset
    (`time.altzone`) when it is `S`, whatever the parsed date; in particular
    `"210214195440"` with flag `W` lands exactly `tz` away from the local
    wall time 2021-02-14T19:54:40. -/
theorem c4_seasonal_flag_offset (tz alt t : Int) (ds : List Char)
    (h : strptimeP1 ds = some t) :
    p1_localtime_to_utc tz alt ds 'W' = some (t + tz) ∧
    p1_localtime_to_utc tz alt ds 'S' = some (t + alt) ∧
    p1_localtime_to_utc tz alt ("210214195440".toList) 'W'
      = some (toEpochSecs 2021 2 14 19 54 40 + tz) := by
  refine ⟨?_, ?_, ?_⟩
  · unfold p1_localtime_to_utc; rw [h]; simp
  · unfold p1_localtime_to_utc; rw [h]; simp
  · rfl

/-- C4 witness: the conversion at the spec's concrete timestamp, with the
    Dutch offsets `time.timezone = -3600`, `time.altzone = -7200`. -/
theorem c4_witness :
    strptimeP1 ("210214195440".toList) = some 1613332480 ∧
    (p1_localtime_to_utc (-3600) (-7200) ("210214195440".toList) 'W'
        = some (1613332480 + (-3600)) ∧
      p1_localtime_to_utc (-3600) (-7200) ("210214195440".toList) 'S'
        = some (1613332480 + (-7200)) ∧
      p1_localtime_to_utc (-3600) (-7200) ("210214195440".toList) 'W'
        = some (toEpochSecs 2021 2 14 19 54 40 + (-3600))) :=
  ⟨by decide, c4_seasonal_flag_offset (-3600) (-7200) 1613332480 _ (by decide)⟩

/-- C5 (code bug): a line set whose timestamp line carries the impossible
    calendar date February 30 makes `p1_data_from_lines` raise an uncaught
    `ValueError` from `strptime` and abort: no Reading is produced at all,
    and the perfectly good power line in the same set is lost — whereas the
    same power line alone extracts `watt = 234`.  The claimed behavior
    (report a `FieldDecodeError`, leave only that field absent, keep the
    rest) is nowhere in the code, whose own `# TODO err handling` comment
    marks the omission. -/
theorem c5_bad_timestamp_aborts (tz alt : Int) :
    p1_data_from_lines tz alt
        ["0-0:1.0.0(210230195440W)".toList, "1-0:1.7.0(00.234*kW)".toList] = none ∧
    p1_data_from_lines tz alt ["1-0:1.7.0(00.234*kW)".toList]
      = some ⟨none, some 234, none, none, none, none, none⟩ :=
  ⟨rfl, rfl⟩

/-- C9: extracting the six body lines of the spec's literal telegram yields
    exactly `watt = 234` (the kilowatt capture 00.234 rescaled by 1000),
    `tariff1 = 32.289`, `tariff2 = 16.064`, `voltage = 235.2`, `gas = 26.8`,
    and both timestamps converted by the seasonal-flag rule (flag `W`, hence
    plus `tz`) from 2021-02-14T19:54:40 and 2021-02-14T19:50:03 local. -/
theorem c9_sample_extraction (tz alt : Int) :
    p1_data_from_lines tz alt sampleBody
      = some ⟨some (toEpochSecs 2021 2 14 19 54 40 + tz),
              some 234,
              some (mkRat 32289 1000),
              some (mkRat 16064 1000),
              some (mkRat 2352 10),
              some (mkRat 26800 1000),
              some (toEpochSecs 2021 2 14 19 50 3 + tz)⟩ := by
  rfl

/-! ## Helper lemmas for the assembler and the gas invariant -/

theorem asmRun_collecting_overrun (lines : List Line) :
    ∀ buf : List Line,
      (∀ l ∈ lines, matchCrc l = none) →
      buf.length ≤ P1_MSG_LIMIT →
      buf.length + lines.length = P1_MSG_LIMIT + 1 →
      asmRun (.collecting buf) lines = (.awaitHeader, [.overrun]) := by
  induction lines with
  | nil =>
    intro buf _ hle hsum
    exfalso
    simp [P1_MSG_LIMIT] at hle hsum
    omega
  | cons l ls ih =>
    intro buf hnc hle hsum
    have hcl : matchCrc l = none := hnc l (List.mem_cons_self l ls)
    have hnc2 : ∀ x ∈ ls, matchCrc x = none :=
      fun x hx => hnc x (List.mem_cons_of_mem l hx)
    by_cases hb : buf.length = P1_MSG_LIMIT
    · have hls : ls = [] := by
        have : ls.length = 0 := by
          simp [List.length_cons] at hsum
          omega
        exact List.length_eq_zero.mp this
      subst hls
      have hstep : asmStep (.collecting buf) l = (.awaitHeader, [.overrun]) := by
        simp only [asmStep, hcl]
        split
        · rfl
        · rename_i hcond
          exfalso
          simp at hcond
          omega
      simp [asmRun, hstep]
    · have hstep : asmStep (.collecting buf) l = (.collecting (buf ++ [l]), []) := by
        simp only [asmStep, hcl]
        split
        · rename_i hcond
          exfalso
          simp at hcond
          omega
        · rfl
      have hrec := ih (buf ++ [l]) hnc2 (by simp; omega)
        (by simp [List.length_cons] at hsum ⊢; omega)
      simp [asmRun, hstep, hrec]

/-- A header line can never match the trailer pattern. -/
theorem headerMatch_not_crc (l : Line) (hh : headerMatch l = true) :
    matchCrc l = none := by
  cases l with
  | nil => simp [headerMatch, stripLit] at hh
  | cons a as =>
    have ha : a = '/' := by
      by_contra hne
      simp [headerMatch, stripLit, hne] at hh
    subst ha
    rfl

theorem applyElectric_gas_fields (p : P1Data) (l : Line) :
    (applyElectric p l).gas = p.gas ∧
    (applyElectric p l).gas_timestamp = p.gas_timestamp := by
  unfold applyElectric setVoltage setTariff2 setTariff1 setWatt
  split <;> split <;> split <;> split <;> exact ⟨rfl, rfl⟩

theorem applyTimestamp_gas_fields (tz alt : Int) (p p' : P1Data) (l : Line)
    (h : applyTimestamp tz alt p l = some p') :
    p'.gas = p.gas ∧ p'.gas_timestamp = p.gas_timestamp := by
  unfold applyTimestamp at h
  split at h
  · split at h
    · injection h with h2
      subst h2
      exact ⟨rfl, rfl⟩
    · exact Option.noConfusion h
  · injection h with h2
    subst h2
    exact ⟨rfl, rfl⟩

theorem applyGas_gas_inv (tz alt : Int) (p p' : P1Data) (l : Line)
    (hp : p.gas.isSome ↔ p.gas_timestamp.isSome)
    (h : applyGas tz alt p l = some p') :
    p'.gas.isSome ↔ p'.gas_timestamp.isSome := by
  unfold applyGas at h
  split at h
  · split at h
    · injection h with h2
      subst h2
      simp
    · exact Option.noConfusion h
  · injection h with h2
    subst h2
    exact hp

theorem processLine_gas_inv (tz alt : Int) (p p' : P1Data) (l : Line)
    (hp : p.gas.isSome ↔ p.gas_timestamp.isSome)
    (h : processLine tz alt p l = some p') :
    p'.gas.isSome ↔ p'.gas_timestamp.isSome := by
  cases hap : applyTimestamp tz alt p l with
  | none =>
    unfold processLine at h
    rw [hap] at h
    exact Option.noConfusion h
  | some p1 =>
    unfold processLine at h
    rw [hap] at h
    have h1 := applyTimestamp_gas_fields tz alt p p1 l hap
    have h2 := applyElectric_gas_fields p1 l
    exact applyGas_gas_inv tz alt (applyElectric p1 l) p' l
      (by rw [h2.1, h2.2, h1.1, h1.2]; exact hp) h

theorem p1_data_aux_gas_inv (tz alt : Int) :
    ∀ (lines : List Line) (p p' : P1Data),
      (p.gas.isSome ↔ p.gas_timestamp.isSome) →
      p1_data_from_lines_aux tz alt p lines = some p' →
      (p'.gas.isSome ↔ p'.gas_timestamp.isSome) := by
  intro lines
  induction lines with
  | nil =>
    intro p p' hp h
    injection h with h2
    subst h2
    exact hp
  | cons l ls ih =>
    intro p p' hp h
    cases hpl : processLine tz alt p l with
    | none =>
      unfold p1_data_from_lines_aux at h
      rw [hpl] at h
      exact Option.noConfusion h
    | some p2 =>
      unfold p1_data_from_lines_aux at h
      rw [hpl] at h
      exact ih p2 p' (processLine_gas_inv tz alt p p2 l hp hpl) h

/-- The Reading the pipeline extracts from the sample telegram when
    `time.timezone = -3600` (CET). -/
def sampleReadingCET : P1Data :=
  ⟨some 1613328880, some 234, some (mkRat 32289 1000), some (mkRat 16064 1000),
   some (mkRat 2352 10), some (mkRat 26800 1000), some 1613328603⟩

/-! ## Remaining claim theorems -/

set_option maxRecDepth 8000 in
/-- C1 (code bug): the read loop never recomputes or compares the CRC.  The
    sample telegram terminated by the trailer `!0000` — whose value 0 differs
    from the protocol CRC16 of the telegram bytes, 34245 — is accepted by the
    trailer pattern, assembled into a complete frame, passed to the field
    extractor, and routed to the high-resolution sink. -/
theorem c1_checksum_never_verified :
    crc16 (telegramBytes sampleHeader sampleBody) = 34245 ∧
    hexVal ("0000".toList) ≠ 34245 ∧
    matchCrc ("!0000".toList) = some ("0000".toList) ∧
    asmRun .awaitHeader (sampleHeader :: sampleBody ++ ["!0000".toList])
      = (.awaitHeader, [.completeFrame sampleBody ("0000".toList)]) ∧
    handleFrame (-3600) (-7200) sampleBody ("0000".toList)
      = some ⟨[(influxdb_highres_bucket, pointsOf sampleReadingCET)], none⟩ := by
  have htb : telegramBytes sampleHeader sampleBody
      = lineBytes sampleHeader ++
        (lineBytes ("0-0:1.0.0(210214195440W)".toList) ++
        (lineBytes ("1-0:1.7.0(00.234*kW)".toList) ++
        (lineBytes ("1-0:1.8.1(000032.289*kWh)".toList) ++
        (lineBytes ("1-0:1.8.2(000016.064*kWh)".toList) ++
        (lineBytes ("1-0:32.7.0(235.2*V)".toList) ++
        (lineBytes ("0-1:24.2.1(210214195003W)(00026.800*m3)".toList) ++
          [33])))))) := by decide
  have s1 : crc16From 0 (lineBytes sampleHeader) = 50446 := by decide
  have s2 : crc16From 50446 (lineBytes ("0-0:1.0.0(210214195440W)".toList))
      = 22245 := by decide
  have s3 : crc16From 22245 (lineBytes ("1-0:1.7.0(00.234*kW)".toList))
      = 60288 := by decide
  have s4 : crc16From 60288 (lineBytes ("1-0:1.8.1(000032.289*kWh)".toList))
      = 29165 := by decide
  have s5 : crc16From 29165 (lineBytes ("1-0:1.8.2(000016.064*kWh)".toList))
      = 46730 := by decide
  have s6 : crc16From 46730 (lineBytes ("1-0:32.7.0(235.2*V)".toList))
      = 10239 := by decide
  have s7 : crc16From 10239 (lineBytes ("0-1:24.2.1(210214195003W)(00026.800*m3)".toList))
      = 17619 := by decide
  have s8 : crc16From 17619 [33] = 34245 := by decide
  refine ⟨?_, by decide, by decide, by decide, by decide⟩
  rw [crc16, htb, crc16From_append, s1, crc16From_append, s2, crc16From_append,
    s3, crc16From_append, s4, crc16From_append, s5, crc16From_append, s6,
    crc16From_append, s7, s8]

/-- C6: a header line followed by `P1_MSG_LIMIT + 1` lines, none matching the
    trailer pattern, produces exactly one `Overrun`, the buffered body is
    discarded, and the machine is back in `AwaitHeader`. -/
theorem c6_overrun_on_limit (h : Line) (lines : List Line)
    (hh : headerMatch h = true)
    (hlen : lines.length = P1_MSG_LIMIT + 1)
    (hnc : ∀ l ∈ lines, matchCrc l = none) :
    asmRun .awaitHeader (h :: lines) = (.awaitHeader, [.overrun]) := by
  have hstep : asmStep .awaitHeader h = (.collecting [], []) := by
    simp [asmStep, hh]
  have hrec := asmRun_collecting_overrun lines [] hnc
    (by simp [P1_MSG_LIMIT]) (by simp [hlen])
  simp [asmRun, hstep, hrec]

def overrunLines : List Line := List.replicate (P1_MSG_LIMIT + 1) ['x']

set_option maxRecDepth 10000 in
/-- C6 witness: a concrete header and 101 plain body lines. -/
theorem c6_witness :
    (headerMatch ("/ISK5A".toList) = true ∧
      overrunLines.length = P1_MSG_LIMIT + 1 ∧
      ∀ l ∈ overrunLines, matchCrc l = none) ∧
    asmRun .awaitHeader (("/ISK5A".toList) :: overrunLines)
      = (.awaitHeader, [.overrun]) :=
  ⟨⟨by decide, by decide, by decide⟩,
    c6_overrun_on_limit _ overrunLines (by decide) (by decide) (by decide)⟩

/-- C7 counterexample: a header line arriving while `Collecting` is appended
    to the body buffer like any other line — no `Overrun` is produced and no
    fresh frame is started, contradicting the claim. -/
theorem c7_counterexample :
    headerMatch ("/ISK5\\2M550E-1013".toList) = true ∧
    asmStep (.collecting ["body".toList]) ("/ISK5\\2M550E-1013".toList)
      = (.collecting ["body".toList, "/ISK5\\2M550E-1013".toList], []) ∧
    (asmStep (.collecting ["body".toList]) ("/ISK5\\2M550E-1013".toList)).2
      ≠ [.overrun] :=
  ⟨by decide, by decide, by decide⟩

/-- C7 amended: the inner read loop tests lines only against the trailer
    pattern, so a header line seen while `Collecting` (below the line budget)
    is simply appended to the current body buffer; no `Overrun` is emitted
    and no new frame begins. -/
theorem c7_header_line_appended (buf : List Line) (l : Line)
    (hh : headerMatch l = true) (hlen : buf.length < P1_MSG_LIMIT) :
    asmStep (.collecting buf) l = (.collecting (buf ++ [l]), []) := by
  have hcl := headerMatch_not_crc l hh
  simp only [asmStep, hcl]
  split
  · rename_i hcond
    exfalso
    simp at hcond
    omega
  · rfl

/-- C7 witness: the amended statement at a concrete header line. -/
theorem c7_witness :
    (headerMatch ("/ISK5A".toList) = true ∧
      ([("x".toList)] : List Line).length < P1_MSG_LIMIT) ∧
    asmStep (.collecting [("x".toList)]) ("/ISK5A".toList)
      = (.collecting [("x".toList), ("/ISK5A".toList)], []) :=
  ⟨⟨by decide, by decide⟩,
    c7_header_line_appended [("x".toList)] _ (by decide) (by decide)⟩

/-- C8 counterexample: two successive Readings whose timestamps regress
    (epoch 120 then epoch 60) are both routed normally — the second one with
    no error and a write to both sinks — so a regression is silently
    accepted, not flagged. -/
theorem c8_counterexample :
    (60 : Int) < 120 ∧
    processReadings
        [⟨some 120, none, none, none, none, none, none⟩,
         ⟨some 60, none, none, none, none, none, none⟩]
      = [⟨[(influxdb_highres_bucket,
            pointsOf ⟨some 120, none, none, none, none, none, none⟩),
           (influxdb_lowres_bucket,
            pointsOf ⟨some 120, none, none, none, none, none, none⟩)], none⟩,
         ⟨[(influxdb_highres_bucket,
            pointsOf ⟨some 60, none, none, none, none, none, none⟩),
           (influxdb_lowres_bucket,
            pointsOf ⟨some 60, none, none, none, none, none, none⟩)], none⟩] :=
  ⟨by decide, by decide⟩

/-- C8 amended: the pipeline keeps no cross-reading state and performs no
    monotonicity check — a Reading whose timestamp regresses below its
    predecessor's is routed exactly as it would be on its own, with no
    error raised. -/
theorem c8_no_monotonicity_check (r1 r2 : P1Data) (t1 t2 : Int)
    ( _h1 : r1.timestamp = some t1) (h2 : r2.timestamp = some t2)
    ( _hreg : t2 < t1) :
    processReadings [r1, r2] = [add_p1_to_influxdb r1, add_p1_to_influxdb r2] ∧
    (add_p1_to_influxdb r2).err = none := by
  refine ⟨rfl, ?_⟩
  unfold add_p1_to_influxdb
  rw [h2]
  by_cases hs : secondOf t2 = 0 <;> simp [hs]

/-- C8 witness: the amended statement at the concrete regressing pair. -/
theorem c8_witness :
    ((⟨some 120, none, none, none, none, none, none⟩ : P1Data).timestamp = some 120 ∧
      (⟨some 61, none, none, none, none, none, none⟩ : P1Data).timestamp = some 61 ∧
      (61 : Int) < 120) ∧
    (processReadings
        [⟨some 120, none, none, none, none, none, none⟩,
         ⟨some 61, none, none, none, none, none, none⟩]
      = [add_p1_to_influxdb ⟨some 120, none, none, none, none, none, none⟩,
         add_p1_to_influxdb ⟨some 61, none, none, none, none, none, none⟩] ∧
      (add_p1_to_influxdb ⟨some 61, none, none, none, none, none, none⟩).err = none) :=
  ⟨⟨rfl, rfl, by decide⟩,
    c8_no_monotonicity_check _ _ 120 61 rfl rfl (by decide)⟩

/-- C10: in every Reading the extractor returns, `gas` is present if and only
    if `gas_timestamp` is present: only the compound gas-line pattern sets
    either, and it sets both (or the whole extraction aborts). -/
theorem c10_gas_fields_together (tz alt : Int) (lines : List Line) (p : P1Data)
    (h : p1_data_from_lines tz alt lines = some p) :
    p.gas.isSome ↔ p.gas_timestamp.isSome :=
  p1_data_aux_gas_inv tz alt lines {} p Iff.rfl h

/-- C10 witness: extraction of a single gas line sets both fields. -/
theorem c10_witness :
    p1_data_from_lines 0 0 ["0-1:24.2.1(210214195003W)(00026.800*m3)".toList]
      = some ⟨none, none, none, none, none, some (mkRat 26800 1000), some 1613332203⟩ ∧
    ((⟨none, none, none, none, none, some (mkRat 26800 1000),
        some 1613332203⟩ : P1Data).gas.isSome ↔
      (⟨none, none, none, none, none, some (mkRat 26800 1000),
        some 1613332203⟩ : P1Data).gas_timestamp.isSome) :=
  ⟨by decide,
    c10_gas_fields_together 0 0 ["0-1:24.2.1(210214195003W)(00026.800*m3)".toList]
      ⟨none, none, none, none, none, some (mkRat 26800 1000), some 1613332203⟩
      (by decide)⟩

end P1
